import Mathlib

/-!
Verification of the variational-node layer of MOFA (`variational_nodes.py`).

The file shallowly embeds the node classes of `variational_nodes.py`:

* Python objects become Lean structures; `__init__` becomes an `init`
  function producing the post-construction state (the abstract base
  `Unobserved_Variational_Node.__init__` sets `self.P = None` and
  `self.Q = None`; every concrete constructor then assigns `Q`, and some
  assign `P`, so `P` is modelled as an `Option` and `Q` as the assigned
  distribution).
* Method calls become functions on those structures; in-place mutation
  becomes explicit state passing (a method returning Python `None` is a
  function returning only the new state).
* Fallible construction (a Python `assert` failure or a `TypeError`)
  becomes `Except PyError`.
* numpy arrays become flat lists of rationals paired with a recorded
  `dim` tuple (a `List Nat`); a Python dict of named values becomes an
  association list `List (String × _)` so that key sets are exact.

The repository's `distributions.py` is not among the sources; the
distribution families are therefore modelled from the spec where their
behaviour matters (see the doc comments marked `Modelled from the spec`).
Only the attributes the node layer touches are modelled.
-/

set_option autoImplicit false

namespace MOFA

/-- Flat data of a numpy array: a list of rational values
(real-valued entries; no claim here depends on float rounding). -/
abbrev Arr := List ℚ

/-- The two failure modes that `BernoulliGaussian_Unobserved_Variational_Node.__init__`
can raise: `len()` of a number raises `TypeError`; the explicit
`assert len(ptheta) == dim[1]` raises `AssertionError`. -/
inductive PyError where
  | typeError
  | assertionError
  deriving DecidableEq, Repr

/-- A Python value passed as the `ptheta` argument: a `float` scalar, an
`int` scalar, or a sequence (list/1-d array) of values. -/
inductive PyVal where
  | float (x : ℚ)
  | int (n : ℤ)
  | seq (l : List ℚ)
  deriving DecidableEq, Repr

/-! ### Distribution carriers

`Modelled from the spec:` `distributions.py` is not among the sources.
Per spec §3 a Distribution is a bundle of family-specific parameters and
moments (`E`, `E2`, `lnE` as applicable) together with a `dim`; the node
layer only stores and reads these attributes, so each family is modelled
as a record of exactly the attributes `variational_nodes.py` touches.
Moments not supplied at construction default to `none` (Python `None`). -/

/-- Univariate Gaussian distribution instance: parameters `mean`, `var`;
moments `E`, `E2`. -/
structure UnivariateGaussian where
  dim : List Nat
  mean : Arr
  var : Arr
  E : Option Arr := none
  E2 : Option Arr := none
  deriving DecidableEq, Repr

/-- Multivariate Gaussian distribution instance: parameters `mean`, `cov`;
moments `E`, `E2`. -/
structure MultivariateGaussian where
  dim : List Nat
  mean : Arr
  cov : Arr
  E : Option Arr := none
  E2 : Option Arr := none
  deriving DecidableEq, Repr

/-- Gamma distribution instance: parameters `a`, `b`; moments `E`, `lnE`. -/
structure Gamma where
  dim : List Nat
  a : Arr
  b : Arr
  E : Option Arr := none
  lnE : Option Arr := none
  deriving DecidableEq, Repr

/-- Bernoulli distribution instance: parameter `theta`; moment `E`. -/
structure Bernoulli where
  dim : List Nat
  theta : Arr
  E : Option Arr := none
  deriving DecidableEq, Repr

/-- Joint Bernoulli-Gaussian (spike-and-slab) distribution instance:
parameters `theta`, `mean`, `var`; moments `E` (marginal first moment)
and `ESW` (joint moment E[S*W]). -/
structure BernoulliGaussian where
  dim : List Nat
  theta : Arr
  mean : Arr
  var : Arr
  E : Option Arr := none
  ESW : Option Arr := none
  deriving DecidableEq, Repr

/-! ### Observed variational nodes (`Observed_Variational_Node`, lines 69-81)

The class stores `dim` and the observation array `obs`; it inherits the
no-op `updateParameters`/`updateExpectations` and the composite `update`
from `Variational_Node` (lines 45-60). -/

/-- State of an `Observed_Variational_Node`: the dimensionality and the
wrapped observation array. -/
structure Observed_Variational_Node where
  dim : List Nat
  obs : Arr
  deriving DecidableEq, Repr

namespace Observed_Variational_Node

/-- `__init__(self, dim, obs)` (lines 75-77). -/
def init (dim : List Nat) (obs : Arr) : Observed_Variational_Node :=
  { dim := dim, obs := obs }

/-- `getObservations` (lines 78-79): `return self.obs`. -/
def getObservations (n : Observed_Variational_Node) : Arr :=
  n.obs

/-- `getExpectation` (lines 80-81): `return self.getObservations()`. -/
def getExpectation (n : Observed_Variational_Node) : Arr :=
  n.getObservations

/-- Inherited `Variational_Node.updateParameters` (lines 54-56): `pass`,
so the state is returned unchanged. -/
def updateParameters (n : Observed_Variational_Node) : Observed_Variational_Node :=
  n

/-- Inherited `Variational_Node.updateExpectations` (lines 45-47): `pass`,
so the state is returned unchanged. -/
def updateExpectations (n : Observed_Variational_Node) : Observed_Variational_Node :=
  n

/-- Inherited `Variational_Node.update` (lines 57-60):
`self.updateParameters()` then `self.updateExpectations()`. -/
def update (n : Observed_Variational_Node) : Observed_Variational_Node :=
  n.updateParameters.updateExpectations

end Observed_Variational_Node

/-! ### Generic unobserved node and the update cycle
(`Unobserved_Variational_Node`, lines 85-100)

`Modelled from the spec:` the `Q.updateExpectations()` call on line 97
lands in `distributions.py`, which is not among the sources. Per spec §3
and §6 it is a pure recomputation of the moments from the current
parameters, with no reliance on previous moment values; this contract is
modelled by a parameter/moment record and an arbitrary moment function
`f` applied to the current parameters. -/

/-- A Distribution as the node layer sees it for the update cycle:
family-specific parameters `params` and moments `moments`. -/
structure Distribution (α β : Type) where
  params : α
  moments : β
  deriving DecidableEq, Repr

/-- `Distribution.updateExpectations()`, modelled from the spec: moments
are recomputed as a pure function `f` of the current parameters; the
parameters are untouched. -/
def Distribution.updateExpectations {α β : Type} (f : α → β)
    (d : Distribution α β) : Distribution α β :=
  { params := d.params, moments := f d.params }

/-- State of an `Unobserved_Variational_Node` as the generic update cycle
sees it: `dim`, the prior `P` (possibly the base-class `None`), and the
posterior `Q` (assigned by every concrete constructor). -/
structure Unobserved_Variational_Node (α β : Type) where
  dim : List Nat
  P : Option (Distribution α β)
  Q : Distribution α β
  deriving DecidableEq, Repr

namespace Unobserved_Variational_Node

variable {α β : Type}

/-- Inherited `Variational_Node.updateParameters` (lines 54-56): `pass`.
No class in `variational_nodes.py` overrides it. -/
def updateParameters (n : Unobserved_Variational_Node α β) :
    Unobserved_Variational_Node α β :=
  n

/-- `Unobserved_Variational_Node.updateExpectations` (lines 96-97):
`self.Q.updateExpectations()`; only the `Q` attribute is touched. -/
def updateExpectations (f : α → β) (n : Unobserved_Variational_Node α β) :
    Unobserved_Variational_Node α β :=
  { n with Q := n.Q.updateExpectations f }

/-- Inherited `Variational_Node.update` (lines 57-60):
`self.updateParameters()` then `self.updateExpectations()`. -/
def update (f : α → β) (n : Unobserved_Variational_Node α β) :
    Unobserved_Variational_Node α β :=
  updateExpectations f (updateParameters n)

end Unobserved_Variational_Node

/-! ### Family-specific unobserved nodes (lines 106-241)

Each node structure records `dim`, the prior `P` (an `Option`, since the
abstract base sets `self.P = None` and not every constructor reassigns
it) and the posterior `Q`. `getParameters`/`getExpectations` return
association lists mirroring the Python dicts. -/

/-- State of a `UnivariateGaussian_Unobserved_Variational_Node`. -/
structure UnivariateGaussian_Unobserved_Variational_Node where
  dim : List Nat
  P : Option UnivariateGaussian
  Q : UnivariateGaussian
  deriving DecidableEq, Repr

namespace UnivariateGaussian_Unobserved_Variational_Node

/-- `__init__` (lines 114-128): `self.P = UnivariateGaussian(dim=dim,
mean=pmean, var=pvar)` (same `dim` as `Q`, to allow an informative prior)
and `self.Q = UnivariateGaussian(dim=dim, mean=qmean, var=qvar, E=qE, E2=qE2)`. -/
def init (dim : List Nat) (pmean pvar qmean qvar : Arr)
    (qE qE2 : Option Arr) : UnivariateGaussian_Unobserved_Variational_Node :=
  { dim := dim
  , P := some { dim := dim, mean := pmean, var := pvar }
  , Q := { dim := dim, mean := qmean, var := qvar, E := qE, E2 := qE2 } }

/-- `getParameters` (lines 130-131): `{'mean': self.Q.mean, 'var': self.Q.var}`. -/
def getParameters (n : UnivariateGaussian_Unobserved_Variational_Node) :
    List (String × Arr) :=
  [("mean", n.Q.mean), ("var", n.Q.var)]

/-- `getExpectations` (lines 132-134): `{'E': self.Q.E, 'E2': self.Q.E2}`. -/
def getExpectations (n : UnivariateGaussian_Unobserved_Variational_Node) :
    List (String × Option Arr) :=
  [("E", n.Q.E), ("E2", n.Q.E2)]

end UnivariateGaussian_Unobserved_Variational_Node

/-- State of a `MultivariateGaussian_Unobserved_Variational_Node`. -/
structure MultivariateGaussian_Unobserved_Variational_Node where
  dim : List Nat
  P : Option MultivariateGaussian
  Q : MultivariateGaussian
  deriving DecidableEq, Repr

namespace MultivariateGaussian_Unobserved_Variational_Node

/-- `__init__` (lines 142-152): only `self.Q = MultivariateGaussian(...)`
is assigned; the `self.P = ...` line is commented out (line 151), so `P`
keeps the base-class value `None` (line 94). -/
def init (dim : List Nat) (qmean qcov : Arr)
    (qE qE2 : Option Arr) : MultivariateGaussian_Unobserved_Variational_Node :=
  { dim := dim
  , P := none
  , Q := { dim := dim, mean := qmean, cov := qcov, E := qE, E2 := qE2 } }

/-- `getParameters` (lines 154-155): `{'mean': self.Q.mean, 'cov': self.Q.cov}`. -/
def getParameters (n : MultivariateGaussian_Unobserved_Variational_Node) :
    List (String × Arr) :=
  [("mean", n.Q.mean), ("cov", n.Q.cov)]

/-- `getExpectations` (lines 156-158): `{'E': self.Q.E, 'E2': self.Q.E2}`. -/
def getExpectations (n : MultivariateGaussian_Unobserved_Variational_Node) :
    List (String × Option Arr) :=
  [("E", n.Q.E), ("E2", n.Q.E2)]

end MultivariateGaussian_Unobserved_Variational_Node

/-- State of a `Gamma_Unobserved_Variational_Node`. -/
structure Gamma_Unobserved_Variational_Node where
  dim : List Nat
  P : Option Gamma
  Q : Gamma
  deriving DecidableEq, Repr

namespace Gamma_Unobserved_Variational_Node

/-- `__init__` (lines 163-174): `self.P = Gamma(dim=(1,), a=pa, b=pb)`
(degenerate dim) and `self.Q = Gamma(dim=dim, a=qa, b=qb, E=qE)`. -/
def init (dim : List Nat) (pa pb qa qb : Arr)
    (qE : Option Arr) : Gamma_Unobserved_Variational_Node :=
  { dim := dim
  , P := some { dim := [1], a := pa, b := pb }
  , Q := { dim := dim, a := qa, b := qb, E := qE } }

/-- `getParameters` (lines 176-177): `{'a': self.Q.a, 'b': self.Q.b}`. -/
def getParameters (n : Gamma_Unobserved_Variational_Node) :
    List (String × Arr) :=
  [("a", n.Q.a), ("b", n.Q.b)]

/-- `getExpectations` (lines 178-180): `{'E': self.Q.E, 'lnE': self.Q.lnE}`. -/
def getExpectations (n : Gamma_Unobserved_Variational_Node) :
    List (String × Option Arr) :=
  [("E", n.Q.E), ("lnE", n.Q.lnE)]

end Gamma_Unobserved_Variational_Node

/-- State of a `Bernoulli_Unobserved_Variational_Node`. -/
structure Bernoulli_Unobserved_Variational_Node where
  dim : List Nat
  P : Option Bernoulli
  Q : Bernoulli
  deriving DecidableEq, Repr

namespace Bernoulli_Unobserved_Variational_Node

/-- `__init__` (lines 189-198): `self.P = Bernoulli(dim=(1,), theta=ptheta)`
(degenerate dim) and `self.Q = Bernoulli(dim=dim, theta=qtheta, E=qE)`. -/
def init (dim : List Nat) (ptheta qtheta : Arr)
    (qE : Option Arr) : Bernoulli_Unobserved_Variational_Node :=
  { dim := dim
  , P := some { dim := [1], theta := ptheta }
  , Q := { dim := dim, theta := qtheta, E := qE } }

/-- `getParameters` (lines 200-201): `{'theta': self.Q.theta}`. -/
def getParameters (n : Bernoulli_Unobserved_Variational_Node) :
    List (String × Arr) :=
  [("theta", n.Q.theta)]

/-- `getExpectation` (lines 202-203): `return self.Q.E`. -/
def getExpectation (n : Bernoulli_Unobserved_Variational_Node) : Option Arr :=
  n.Q.E

/-- `getExpectations` (lines 204-206): `{'E': self.Q.E}`. -/
def getExpectations (n : Bernoulli_Unobserved_Variational_Node) :
    List (String × Option Arr) :=
  [("E", n.Q.E)]

end Bernoulli_Unobserved_Variational_Node

/-- State of a `BernoulliGaussian_Unobserved_Variational_Node`. The
constructor never assigns `self.P` (line 228 is commented out), so `P`
keeps the base-class `None`; only the prior spike-probability is kept,
as the separate attribute `P_theta`. -/
structure BernoulliGaussian_Unobserved_Variational_Node where
  dim : List Nat
  P : Option BernoulliGaussian
  P_theta : Arr
  Q : BernoulliGaussian
  deriving DecidableEq, Repr

namespace BernoulliGaussian_Unobserved_Variational_Node

/-- The `ptheta` normalisation of `__init__` (lines 230-234), with
`K = dim[1]`:

    if type(ptheta) == float or len(ptheta) == 1:
        self.P_theta = ptheta * s.ones(dim[1])
    else:
        assert len(ptheta) == dim[1], "ptheta dimension mismatch"
        self.P_theta = ptheta

Control flow, case by case on the Python value:
* a `float` scalar short-circuits the `or`, and `ptheta * s.ones(K)` is
  the length-`K` array with every entry equal to the scalar;
* an `int` scalar fails the `type(ptheta) == float` test and then
  `len(ptheta)` raises `TypeError`;
* a sequence of length 1 passes the `len(ptheta) == 1` test and numpy
  broadcasts it against `s.ones(K)`, giving the length-`K` array with
  every entry equal to its single element;
* any other sequence reaches the `assert`, which passes exactly when its
  length is `K` (then `ptheta` is stored verbatim) and otherwise raises
  `AssertionError`. -/
def pthetaInit (K : Nat) : PyVal → Except PyError Arr
  | PyVal.float x => Except.ok (List.replicate K x)
  | PyVal.int _ => Except.error PyError.typeError
  | PyVal.seq l =>
    if l.length = 1 then Except.ok (List.replicate K (l.headD 0))
    else if l.length = K then Except.ok l
    else Except.error PyError.assertionError

/-- `__init__` (lines 219-236) for `dim = (N, K)`: normalise `ptheta`
into `P_theta` (which can fail, see `pthetaInit`), leave `P` at the
base-class `None`, and assign
`self.Q = BernoulliGaussian(dim=dim, theta=qtheta, mean=qmean, var=qvar)`. -/
def init (N K : Nat) (qmean qvar : Arr) (ptheta : PyVal) (qtheta : Arr) :
    Except PyError BernoulliGaussian_Unobserved_Variational_Node :=
  match pthetaInit K ptheta with
  | Except.error e => Except.error e
  | Except.ok pt =>
    Except.ok
      { dim := [N, K]
      , P := none
      , P_theta := pt
      , Q := { dim := [N, K], theta := qtheta, mean := qmean, var := qvar } }

/-- `getParameters` (lines 238-239):
`{'theta': self.Q.theta, 'mean': self.Q.mean, 'var': self.Q.var}`. -/
def getParameters (n : BernoulliGaussian_Unobserved_Variational_Node) :
    List (String × Arr) :=
  [("theta", n.Q.theta), ("mean", n.Q.mean), ("var", n.Q.var)]

/-- `getExpectation` (lines 240-241): `return self.Q.ESW`. -/
def getExpectation (n : BernoulliGaussian_Unobserved_Variational_Node) :
    Option Arr :=
  n.Q.ESW

/-- What the inherited `Unobserved_Variational_Node.getExpectation`
(lines 99-100) would return on this node: `self.Q.E`, the marginal first
moment. The class overrides it; this definition exists to compare the
override against the inherited behaviour. -/
def genericGetExpectation (n : BernoulliGaussian_Unobserved_Variational_Node) :
    Option Arr :=
  n.Q.E

end BernoulliGaussian_Unobserved_Variational_Node

/-! ## Theorems -/

/-- C2: for every variational node, `update()` calls `updateParameters()`
and then `updateExpectations()`, in that fixed order, and its only effect
is on the node's `Q` distribution: `dim` and `P` are unchanged, while `Q`
ends up with its (here untouched, since no class in the file overrides
`updateParameters`) parameters and the moments recomputed from them. For
an observed node both steps are the inherited no-ops, so `update` leaves
the whole state unchanged. The methods return only the new state (Python
`None` return value). -/
theorem update_order_and_frame {α β : Type} (f : α → β)
    (n : Unobserved_Variational_Node α β) (o : Observed_Variational_Node) :
    Unobserved_Variational_Node.update f n =
      Unobserved_Variational_Node.updateExpectations f
        (Unobserved_Variational_Node.updateParameters n) ∧
    (Unobserved_Variational_Node.update f n).dim = n.dim ∧
    (Unobserved_Variational_Node.update f n).P = n.P ∧
    (Unobserved_Variational_Node.update f n).Q =
      { params := n.Q.params, moments := f n.Q.params } ∧
    Observed_Variational_Node.update o = o :=
  ⟨rfl, rfl, rfl, rfl, rfl⟩

/-- C3: for every observed node, `getExpectation()` returns exactly
`getObservations()`, both equal to the stored `obs`, and neither
`update()` nor `updateParameters()` nor `updateExpectations()` changes
`obs`. -/
theorem observed_expectation_immutable (dim : List Nat) (obs : Arr) :
    (Observed_Variational_Node.init dim obs).getExpectation =
      (Observed_Variational_Node.init dim obs).getObservations ∧
    (Observed_Variational_Node.init dim obs).getObservations = obs ∧
    ((Observed_Variational_Node.init dim obs).update).obs = obs ∧
    ((Observed_Variational_Node.init dim obs).updateParameters).obs = obs ∧
    ((Observed_Variational_Node.init dim obs).updateExpectations).obs = obs :=
  ⟨rfl, rfl, rfl, rfl, rfl⟩

/-- C4: each family-specific node returns exactly the documented key set,
with no extras and no omissions: UnivariateGaussian `{mean,var}`/`{E,E2}`,
MultivariateGaussian `{mean,cov}`/`{E,E2}`, Gamma `{a,b}`/`{E,lnE}` (in
particular `getParameters` never returns `E` or `lnE`), Bernoulli
`{theta}`/`{E}`, and BernoulliGaussian `getParameters` returns
`{theta,mean,var}`. -/
theorem family_key_sets
    (u : UnivariateGaussian_Unobserved_Variational_Node)
    (m : MultivariateGaussian_Unobserved_Variational_Node)
    (g : Gamma_Unobserved_Variational_Node)
    (b : Bernoulli_Unobserved_Variational_Node)
    (sg : BernoulliGaussian_Unobserved_Variational_Node) :
    u.getParameters.map Prod.fst = ["mean", "var"] ∧
    u.getExpectations.map Prod.fst = ["E", "E2"] ∧
    m.getParameters.map Prod.fst = ["mean", "cov"] ∧
    m.getExpectations.map Prod.fst = ["E", "E2"] ∧
    g.getParameters.map Prod.fst = ["a", "b"] ∧
    g.getExpectations.map Prod.fst = ["E", "lnE"] ∧
    b.getParameters.map Prod.fst = ["theta"] ∧
    b.getExpectations.map Prod.fst = ["E"] ∧
    sg.getParameters.map Prod.fst = ["theta", "mean", "var"] :=
  ⟨rfl, rfl, rfl, rfl, rfl, rfl, rfl, rfl, rfl⟩

/-- C5 counterexample: the MultivariateGaussian node constructor never
assigns `self.P` (the assignment on line 151 is commented out), so after
construction its `P` attribute is still the base-class `None` — not every
unobserved node holds a non-null prior distribution object. -/
theorem mvg_prior_none_counterexample :
    (MultivariateGaussian_Unobserved_Variational_Node.init [5, 3]
      [0] [1] none none).P = none :=
  rfl

/-- C5 (amended): the UnivariateGaussian, Gamma and Bernoulli node
constructors assign both a prior `P` and a posterior `Q` distribution
object; the MultivariateGaussian and BernoulliGaussian constructors
assign only `Q` and leave `P` at the base-class `None` (BernoulliGaussian
keeps just the prior spike-probability array `P_theta`). -/
theorem family_P_Q_assignment (dim : List Nat)
    (pmean pvar qmean qvar pa pb qa qb pt qt qm2 qc qm3 qv3 qt3 : Arr)
    (qE qE2 qEg qEb qE3 qE4 : Option Arr) (N K : Nat) (x : ℚ) :
    (UnivariateGaussian_Unobserved_Variational_Node.init dim
        pmean pvar qmean qvar qE qE2).P =
      some { dim := dim, mean := pmean, var := pvar } ∧
    (UnivariateGaussian_Unobserved_Variational_Node.init dim
        pmean pvar qmean qvar qE qE2).Q =
      { dim := dim, mean := qmean, var := qvar, E := qE, E2 := qE2 } ∧
    (Gamma_Unobserved_Variational_Node.init dim pa pb qa qb qEg).P =
      some { dim := [1], a := pa, b := pb } ∧
    (Gamma_Unobserved_Variational_Node.init dim pa pb qa qb qEg).Q =
      { dim := dim, a := qa, b := qb, E := qEg } ∧
    (Bernoulli_Unobserved_Variational_Node.init dim pt qt qEb).P =
      some { dim := [1], theta := pt } ∧
    (Bernoulli_Unobserved_Variational_Node.init dim pt qt qEb).Q =
      { dim := dim, theta := qt, E := qEb } ∧
    (MultivariateGaussian_Unobserved_Variational_Node.init dim
        qm2 qc qE3 qE4).P = none ∧
    (MultivariateGaussian_Unobserved_Variational_Node.init dim
        qm2 qc qE3 qE4).Q =
      { dim := dim, mean := qm2, cov := qc, E := qE3, E2 := qE4 } ∧
    BernoulliGaussian_Unobserved_Variational_Node.init N K qm3 qv3
        (PyVal.float x) qt3 =
      Except.ok
        { dim := [N, K], P := none, P_theta := List.replicate K x
        , Q := { dim := [N, K], theta := qt3, mean := qm3, var := qv3 } } :=
  ⟨rfl, rfl, rfl, rfl, rfl, rfl, rfl, rfl, rfl⟩

/-- C6: the Gamma node constructs its prior with degenerate dim `(1,)`
while its `Q` carries the node's full dim; the Bernoulli node likewise
builds its prior with dim `(1,)`; the UnivariateGaussian node builds its
prior with the same dim as `Q` (informative per-element prior). -/
theorem prior_dims_per_family (dim : List Nat)
    (pa pb qa qb pt qt pmean pvar qmean qvar : Arr)
    (qEg qEb qE qE2 : Option Arr) :
    (Gamma_Unobserved_Variational_Node.init dim pa pb qa qb qEg).P =
      some { dim := [1], a := pa, b := pb } ∧
    (Gamma_Unobserved_Variational_Node.init dim pa pb qa qb qEg).Q.dim = dim ∧
    (Bernoulli_Unobserved_Variational_Node.init dim pt qt qEb).P =
      some { dim := [1], theta := pt } ∧
    (Bernoulli_Unobserved_Variational_Node.init dim pt qt qEb).Q.dim = dim ∧
    (UnivariateGaussian_Unobserved_Variational_Node.init dim
        pmean pvar qmean qvar qE qE2).P =
      some { dim := dim, mean := pmean, var := pvar } ∧
    (UnivariateGaussian_Unobserved_Variational_Node.init dim
        pmean pvar qmean qvar qE qE2).Q.dim = dim :=
  ⟨rfl, rfl, rfl, rfl, rfl, rfl⟩

/-- C7: the spike-and-slab node's `getExpectation` returns the joint
moment `Q.ESW`; whenever that joint moment differs from the marginal
first moment `Q.E`, the override therefore disagrees with what the
inherited generic `Unobserved_Variational_Node.getExpectation` (which
returns `Q.E`) would produce. -/
theorem bg_getExpectation_ESW
    (n : BernoulliGaussian_Unobserved_Variational_Node)
    (h : n.Q.ESW ≠ n.Q.E) :
    n.getExpectation = n.Q.ESW ∧
    n.getExpectation ≠ n.genericGetExpectation :=
  ⟨rfl, h⟩

/-- Sample spike-and-slab node whose joint moment `ESW` differs from the
marginal first moment `E`. -/
def bgSampleNode : BernoulliGaussian_Unobserved_Variational_Node :=
  { dim := [2, 2]
  , P := none
  , P_theta := [1, 1]
  , Q := { dim := [2, 2], theta := [1], mean := [0], var := [1]
         , E := some [0], ESW := some [1] } }

/-- C7 witness: the sample node satisfies the hypothesis
`Q.ESW ≠ Q.E`, and the conclusion holds there. -/
theorem bg_getExpectation_ESW_witness :
    bgSampleNode.Q.ESW ≠ bgSampleNode.Q.E ∧
    (bgSampleNode.getExpectation = bgSampleNode.Q.ESW ∧
     bgSampleNode.getExpectation ≠ bgSampleNode.genericGetExpectation) :=
  ⟨by decide, bg_getExpectation_ESW bgSampleNode (by decide)⟩

/-- C8: with `Q.updateExpectations()` the pure recomputation of moments
from current parameters required by the spec, the node-level
`updateExpectations` is idempotent: running it twice with no intervening
`updateParameters` yields the same state (hence the same moments) as
running it once. -/
theorem updateExpectations_idempotent {α β : Type} (f : α → β)
    (n : Unobserved_Variational_Node α β) :
    Unobserved_Variational_Node.updateExpectations f
        (Unobserved_Variational_Node.updateExpectations f n) =
      Unobserved_Variational_Node.updateExpectations f n :=
  rfl

/-- C9: since no class in `variational_nodes.py` overrides the no-op
`updateParameters`, `update()` is observably equivalent to calling
`updateExpectations()` alone, and `Q`'s parameters are never changed by
`update()` at this layer. -/
theorem update_equiv_updateExpectations {α β : Type} (f : α → β)
    (n : Unobserved_Variational_Node α β) :
    Unobserved_Variational_Node.update f n =
      Unobserved_Variational_Node.updateExpectations f n ∧
    (Unobserved_Variational_Node.update f n).Q.params = n.Q.params :=
  ⟨rfl, rfl⟩

/-- C1 counterexample: with `dim = (2, 3)` the sequence `[1/2]` has
length `1 ≠ 3 = K`, yet construction succeeds (the `len(ptheta) == 1`
test routes it to the broadcast branch), contradicting the claim that
every sequence of length `≠ K` fails; moreover the `int` scalar `1`
makes construction fail with a `TypeError` (from `len(1)`), not succeed
by broadcasting, contradicting the claim for non-float scalars. -/
theorem bg_scalar_seq_counterexample :
    BernoulliGaussian_Unobserved_Variational_Node.init 2 3 [0, 0] [1, 1]
        (PyVal.seq [1/2]) [0, 0, 0] =
      Except.ok
        { dim := [2, 3]
        , P := none
        , P_theta := List.replicate 3 ((1 : ℚ)/2)
        , Q := { dim := [2, 3], theta := [0, 0, 0]
               , mean := [0, 0], var := [1, 1] } } ∧
    BernoulliGaussian_Unobserved_Variational_Node.init 2 3 [0, 0] [1, 1]
        (PyVal.int 1) [0, 0, 0] = Except.error PyError.typeError :=
  ⟨rfl, rfl⟩

/-- C1 (amended): given `dim = (N, K)`, a `float` scalar `ptheta` is
stored as the shape-`(K,)` array with every entry equal to that scalar,
and a sequence whose length is neither `1` nor `K` makes construction
fail with the assertion error (a length-1 sequence is instead broadcast,
and an `int` scalar raises a `TypeError`). -/
theorem bg_ptheta_validation_amended (N K : Nat) (qmean qvar qtheta : Arr)
    (x : ℚ) (l : List ℚ) (h1 : l.length ≠ 1) (h2 : l.length ≠ K) :
    BernoulliGaussian_Unobserved_Variational_Node.init N K qmean qvar
        (PyVal.float x) qtheta =
      Except.ok
        { dim := [N, K], P := none, P_theta := List.replicate K x
        , Q := { dim := [N, K], theta := qtheta, mean := qmean, var := qvar } } ∧
    BernoulliGaussian_Unobserved_Variational_Node.init N K qmean qvar
        (PyVal.seq l) qtheta = Except.error PyError.assertionError := by
  refine ⟨rfl, ?_⟩
  simp only [BernoulliGaussian_Unobserved_Variational_Node.init,
    BernoulliGaussian_Unobserved_Variational_Node.pthetaInit,
    if_neg h1, if_neg h2]

/-- C1 witness: at `dim = (2, 3)` the length-2 sequence `[1/2, 1/2]`
has length `≠ 1` and `≠ 3`, and the amended statement holds there. -/
theorem bg_ptheta_validation_amended_witness :
    (([(1 : ℚ)/2, 1/2] : List ℚ).length ≠ 1 ∧
     ([(1 : ℚ)/2, 1/2] : List ℚ).length ≠ 3) ∧
    (BernoulliGaussian_Unobserved_Variational_Node.init 2 3 [0] [1]
        (PyVal.float ((1 : ℚ)/2)) [0] =
      Except.ok
        { dim := [2, 3], P := none, P_theta := List.replicate 3 ((1 : ℚ)/2)
        , Q := { dim := [2, 3], theta := [0], mean := [0], var := [1] } } ∧
     BernoulliGaussian_Unobserved_Variational_Node.init 2 3 [0] [1]
        (PyVal.seq [(1 : ℚ)/2, 1/2]) [0] =
      Except.error PyError.assertionError) :=
  ⟨⟨by decide, by decide⟩,
   bg_ptheta_validation_amended 2 3 [0] [1] [0] ((1 : ℚ)/2)
     [(1 : ℚ)/2, 1/2] (by decide) (by decide)⟩

/-- C10: the broadcast branch is taken exactly for a `float` scalar or a
length-1 sequence: a `float` scalar `x` and a length-1 sequence `[y]`
are both broadcast to the shape-`(K,)` constant array (for every `K`,
including `K ≠ 1`, with no failure); an `int` scalar fails with a
`TypeError` (raised by `len`); and a sequence of length `K` (when
`K ≠ 1`) is not broadcast but stored verbatim after the assertion
passes. -/
theorem bg_broadcast_condition (N K : Nat) (qmean qvar qtheta : Arr)
    (x y : ℚ) (z : ℤ) (l : List ℚ) (hK : l.length = K) (h1 : l.length ≠ 1) :
    BernoulliGaussian_Unobserved_Variational_Node.init N K qmean qvar
        (PyVal.float x) qtheta =
      Except.ok
        { dim := [N, K], P := none, P_theta := List.replicate K x
        , Q := { dim := [N, K], theta := qtheta, mean := qmean, var := qvar } } ∧
    BernoulliGaussian_Unobserved_Variational_Node.init N K qmean qvar
        (PyVal.seq [y]) qtheta =
      Except.ok
        { dim := [N, K], P := none, P_theta := List.replicate K y
        , Q := { dim := [N, K], theta := qtheta, mean := qmean, var := qvar } } ∧
    BernoulliGaussian_Unobserved_Variational_Node.init N K qmean qvar
        (PyVal.int z) qtheta = Except.error PyError.typeError ∧
    BernoulliGaussian_Unobserved_Variational_Node.init N K qmean qvar
        (PyVal.seq l) qtheta =
      Except.ok
        { dim := [N, K], P := none, P_theta := l
        , Q := { dim := [N, K], theta := qtheta, mean := qmean, var := qvar } } := by
  refine ⟨rfl, rfl, rfl, ?_⟩
  simp only [BernoulliGaussian_Unobserved_Variational_Node.init,
    BernoulliGaussian_Unobserved_Variational_Node.pthetaInit,
    if_neg h1, if_pos hK]

/-- C10 witness: at `dim = (1, 2)` with the length-2 sequence `[0, 1]`
(length `= K = 2`, `≠ 1`), the statement holds: the float `1/2` and the
length-1 sequence `[1/2]` broadcast, the int `7` raises `TypeError`, and
`[0, 1]` is stored verbatim. -/
theorem bg_broadcast_condition_witness :
    (([0, 1] : List ℚ).length = 2 ∧ ([0, 1] : List ℚ).length ≠ 1) ∧
    (BernoulliGaussian_Unobserved_Variational_Node.init 1 2 [0] [1]
        (PyVal.float ((1 : ℚ)/2)) [0] =
      Except.ok
        { dim := [1, 2], P := none, P_theta := List.replicate 2 ((1 : ℚ)/2)
        , Q := { dim := [1, 2], theta := [0], mean := [0], var := [1] } } ∧
     BernoulliGaussian_Unobserved_Variational_Node.init 1 2 [0] [1]
        (PyVal.seq [(1 : ℚ)/2]) [0] =
      Except.ok
        { dim := [1, 2], P := none, P_theta := List.replicate 2 ((1 : ℚ)/2)
        , Q := { dim := [1, 2], theta := [0], mean := [0], var := [1] } } ∧
     BernoulliGaussian_Unobserved_Variational_Node.init 1 2 [0] [1]
        (PyVal.int 7) [0] = Except.error PyError.typeError ∧
     BernoulliGaussian_Unobserved_Variational_Node.init 1 2 [0] [1]
        (PyVal.seq [0, 1]) [0] =
      Except.ok
        { dim := [1, 2], P := none, P_theta := [0, 1]
        , Q := { dim := [1, 2], theta := [0], mean := [0], var := [1] } }) :=
  ⟨⟨by decide, by decide⟩,
   bg_broadcast_condition 1 2 [0] [1] [0] ((1 : ℚ)/2) ((1 : ℚ)/2) 7 [0, 1]
     (by decide) (by decide)⟩

end MOFA
